import Mathlib

/-!
Shallow embedding of `internal/repository/rpc/sfc_delegation.go` (package rpc,
galaxy-graphql). Each bridge method calls an externally supplied contract
client / transport; those external outcomes are passed in as explicit oracle
arguments. Go's `(value, error)` multi-returns are modelled as
`Option value × Option GoError`, so a `nil` pointer result and a `nil` error
are both representable, exactly as in Go.
-/

/-- Go `error` values; we only ever compare them for identity, a string model suffices. -/
abbrev GoError := String

/-- go-ethereum `common.Address` is a fixed 20-byte identifier; modelled opaquely. -/
abbrev Common.Address := Nat

/-- Raw response bytes (each entry a byte value 0..255). -/
abbrev Bytes := List Nat

/-- Embedding of `big.Int.SetBytes`: interpret the bytes as a big-endian
unsigned integer. -/
def setBytes (data : Bytes) : Int :=
  data.foldl (fun acc b => acc * 256 + (b : Int)) 0

/-- Embedding of `big.Int.Uint64`. Go documents the result as the `uint64`
representation when the value fits, and undefined otherwise; we fix the total
model `toNat % 2^64`, which agrees with Go on every representable value. -/
def goUint64 (i : Int) : Nat := i.toNat % 2 ^ 64

/-- Embedding of `ChainBridge.AmountStaked` (sfc_delegation.go:29-33): after a
debug log, the result of `SfcContract().GetStake` is returned unchanged. The
oracle argument `getStake` is that contract read's outcome. -/
def AmountStaked (getStake : Except GoError Int) : Except GoError Int :=
  getStake

/-- Embedding of `ChainBridge.AmountStakeLocked` (sfc_delegation.go:36-38):
returns the result of `SfcContract().GetLockedStake` unchanged. -/
def AmountStakeLocked (getLockedStake : Except GoError Int) : Except GoError Int :=
  getLockedStake

/-- Embedding of `ChainBridge.AmountStakeUnlocked` (sfc_delegation.go:41-43):
returns the result of `SfcContract().GetUnlockedStake` unchanged. -/
def AmountStakeUnlocked (getUnlockedStake : Except GoError Int) : Except GoError Int :=
  getUnlockedStake

/-- Embedding of `ChainBridge.StakeUnlockPenalty` (sfc_delegation.go:46-73).
`packRes` is the outcome of `SfcAbi().Pack("unlockStake", valID, amount)`;
`callRes` is the outcome of `eth.CallContract`. On a pack or call error the
error is forwarded. When the call succeeds but `len(data) != 32`, the source
executes `return nil, err` — and `err` is `nil` on that path (the call just
succeeded) — so the Go function returns `(nil, nil)`: no value and no error.
On a 32-byte response it returns `new(big.Int).SetBytes(data)`. -/
def StakeUnlockPenalty (packRes : Except GoError Bytes)
    (callRes : Except GoError Bytes) : Option Int × Option GoError :=
  match packRes with
  | .error e => (none, some e)
  | .ok _cd =>
    match callRes with
    | .error e => (none, some e)
    | .ok data =>
      if data.length ≠ 32 then
        (none, none)
      else
        (some (setBytes data), none)

/-- Embedding of `types.PendingRewards` as constructed in
sfc_delegation.go:78-82: fields `Address`, `Staker` (`hexutil.Big`) and
`Amount` (`hexutil.Big`, zero value 0). -/
structure Types.PendingRewards where
  Address : Common.Address
  Staker : Int
  Amount : Int
deriving DecidableEq

/-- Embedding of `ChainBridge.PendingRewards` (sfc_delegation.go:76-94): an
empty record is prepared carrying the inputs with amount zero; when the
contract query fails the empty record is returned with a `nil` error, when it
succeeds the amount is filled in. `pendingRewardsCall` is the outcome of
`SfcContract().PendingRewards`. -/
def PendingRewards (addr : Common.Address) (valID : Int)
    (pendingRewardsCall : Except GoError Int) :
    Option Types.PendingRewards × Option GoError :=
  let pr : Types.PendingRewards := ⟨addr, valID, 0⟩
  match pendingRewardsCall with
  | .error _e => (some pr, none)
  | .ok amo => (some ⟨pr.Address, pr.Staker, amo⟩, none)

/-- Outcome of a Go call that may panic instead of returning. -/
inductive CallOutcome (α : Type) where
  | panicked : CallOutcome α
  | failed : GoError → CallOutcome α
  | ok : α → CallOutcome α
deriving DecidableEq

/-- Embedding of the `GetLockupInfo` contract binding result: a Go struct of
four `*big.Int` pointer fields, each possibly `nil`. -/
structure LockupInfo where
  LockedStake : Option Int
  FromEpoch : Option Int
  EndTime : Option Int
  Duration : Option Int
deriving DecidableEq

/-- Embedding of `types.DelegationLock` as constructed in
sfc_delegation.go:120-125: `LockedAmount` (`hexutil.Big`) and three
`hexutil.Uint64` fields. Its Go zero value is `⟨0, 0, 0, 0⟩`. -/
structure Types.DelegationLock where
  LockedAmount : Int
  LockedFromEpoch : Nat
  LockedUntil : Nat
  Duration : Nat
deriving DecidableEq

/-- Embedding of `ChainBridge.DelegationLock` (sfc_delegation.go:97-126).
A deferred `recover` turns any panic into the return `(⟨0,0,0,0⟩, nil)`: the
named result `dll` is set to the zero record while the named `err` keeps the
value it had, which is `nil` on every panicking path (the panic either
pre-empts the `lock, err :=` assignment or happens after `err` was set to
`nil` by a successful call). A failed `GetLockupInfo` forwards its error. On
success, if `FromEpoch` or `EndTime` is `nil` the function returns the
"delegation lock missing" error; otherwise it builds the record from
`*lock.LockedStake`, `lock.FromEpoch.Uint64()`, `lock.EndTime.Uint64()` and
`lock.Duration.Uint64()` — and if `LockedStake` or `Duration` is `nil`, that
very dereference panics and the recover path produces the zero record. -/
def DelegationLock (getLockupInfo : CallOutcome LockupInfo) :
    Option Types.DelegationLock × Option GoError :=
  match getLockupInfo with
  | .panicked => (some ⟨0, 0, 0, 0⟩, none)
  | .failed e => (none, some e)
  | .ok lock =>
    if lock.FromEpoch.isNone || lock.EndTime.isNone then
      (none, some "delegation lock missing")
    else
      match lock.LockedStake, lock.FromEpoch, lock.EndTime, lock.Duration with
      | some ls, some fe, some et, some d =>
        (some ⟨ls, goUint64 fe, goUint64 et, goUint64 d⟩, none)
      | _, _, _, _ => (some ⟨0, 0, 0, 0⟩, none)

/-- Characterises the executions of `DelegationLock` in which a runtime panic
is raised and recovered: either `GetLockupInfo` itself panics, or it succeeds,
both timing fields are present, and the record assembly dereferences a `nil`
`LockedStake` or calls `Uint64` on a `nil` `Duration`. -/
def delegationLockPanics (getLockupInfo : CallOutcome LockupInfo) : Bool :=
  match getLockupInfo with
  | .panicked => true
  | .failed _ => false
  | .ok lock =>
    !(lock.FromEpoch.isNone || lock.EndTime.isNone) &&
      (lock.LockedStake.isNone || lock.Duration.isNone)

/-- Embedding of `ChainBridge.DelegationTokenizerUnlocked`
(sfc_delegation.go:147-166). `newSfcTokenizer` is the outcome of
`contracts.NewSfcTokenizer`; `allowedToWithdrawStake` is the outcome of the
lock-status query on the instantiated contract. Either failure is forwarded
with a `false` boolean; on success the queried flag is returned. -/
def DelegationTokenizerUnlocked (newSfcTokenizer : Except GoError Unit)
    (allowedToWithdrawStake : Except GoError Bool) : Bool × Option GoError :=
  match newSfcTokenizer with
  | .error e => (false, some e)
  | .ok _ =>
    match allowedToWithdrawStake with
    | .error e => (false, some e)
    | .ok lock => (lock, none)

/-! Theorems settling the claims. -/

/-- C5: for every transport outcome, when the underlying contract read
succeeds with value `v`, `AmountStaked`, `AmountStakeLocked` and
`AmountStakeUnlocked` each return that value without error and untransformed;
when it fails with error `e`, each returns that error unchanged. -/
theorem amountFns_forward_transport (r : Except GoError Int) :
    (∀ v : Int, r = Except.ok v →
      AmountStaked r = Except.ok v ∧ AmountStakeLocked r = Except.ok v ∧
        AmountStakeUnlocked r = Except.ok v) ∧
    (∀ e : GoError, r = Except.error e →
      AmountStaked r = Except.error e ∧ AmountStakeLocked r = Except.error e ∧
        AmountStakeUnlocked r = Except.error e) := by
  constructor
  · intro v hv
    simp [AmountStaked, AmountStakeLocked, AmountStakeUnlocked, hv]
  · intro e he
    simp [AmountStaked, AmountStakeLocked, AmountStakeUnlocked, he]

/-- Witness for C5 at the concrete successful read `ok 7`. -/
theorem amountFns_forward_transport_witness :
    AmountStaked (Except.ok 7) = Except.ok 7 ∧
      AmountStakeLocked (Except.ok 7) = Except.ok 7 ∧
      AmountStakeUnlocked (Except.ok 7) = Except.ok 7 :=
  (amountFns_forward_transport (Except.ok 7)).1 7 rfl

/-- C1 (failing input): with a successful pack and a successful simulated
call returning 31 bytes, `StakeUnlockPenalty` returns `(nil, nil)` — no
value and, contrary to the claim, a nil error: the length-check branch
executes `return nil, err` but `err` is nil there, the call having just
succeeded. -/
theorem stakeUnlockPenalty_short_response_nil_error :
    StakeUnlockPenalty (Except.ok [0]) (Except.ok (List.replicate 31 0)) =
      (none, none) := by
  decide

/-- C6: whenever packing succeeds and the simulated call succeeds with a
response of exactly 32 bytes, `StakeUnlockPenalty` returns, without error,
the big-endian unsigned decoding of those 32 bytes (`big.Int.SetBytes`). -/
theorem stakeUnlockPenalty_decodes_32 (cd data : Bytes)
    (h : data.length = 32) :
    StakeUnlockPenalty (Except.ok cd) (Except.ok data) =
      (some (setBytes data), none) := by
  simp [StakeUnlockPenalty, h]

/-- Witness for C6 at a concrete 32-byte response. -/
theorem stakeUnlockPenalty_decodes_32_witness :
    StakeUnlockPenalty (Except.ok [0]) (Except.ok (List.replicate 32 1)) =
      (some (setBytes (List.replicate 32 1)), none) :=
  stakeUnlockPenalty_decodes_32 [0] (List.replicate 32 1) (by decide)

/-- C2: `PendingRewards` always returns a nil error, and when the underlying
contract query fails it returns the prepared record carrying the caller's
inputs with a zero amount. -/
theorem pendingRewards_never_errors (addr : Common.Address) (valID : Int)
    (q : Except GoError Int) :
    (PendingRewards addr valID q).2 = none ∧
    (∀ e : GoError, q = Except.error e →
      (PendingRewards addr valID q).1 = some ⟨addr, valID, 0⟩) := by
  constructor
  · cases q <;> rfl
  · intro e he
    simp [PendingRewards, he]

/-- Witness for C2 at a concrete failing query. -/
theorem pendingRewards_never_errors_witness :
    (PendingRewards 3 5 (Except.error "boom")).2 = none ∧
      (PendingRewards 3 5 (Except.error "boom")).1 = some ⟨3, 5, 0⟩ :=
  ⟨(pendingRewards_never_errors 3 5 (Except.error "boom")).1,
    (pendingRewards_never_errors 3 5 (Except.error "boom")).2 "boom" rfl⟩

/-- C9: for every query outcome, success and failure alike, the record
returned by `PendingRewards` carries the caller's address in `Address` and
the caller's validator id in `Staker`. -/
theorem pendingRewards_echoes_inputs (addr : Common.Address) (valID : Int)
    (q : Except GoError Int) :
    ∃ rec : Types.PendingRewards,
      (PendingRewards addr valID q).1 = some rec ∧
        rec.Address = addr ∧ rec.Staker = valID := by
  cases q with
  | error e => exact ⟨⟨addr, valID, 0⟩, rfl, rfl, rfl⟩
  | ok amo => exact ⟨⟨addr, valID, amo⟩, rfl, rfl, rfl⟩

/-- C3: on every execution in which the `GetLockupInfo` call or the result
assembly panics, `DelegationLock` does not propagate the panic: the deferred
recover makes it return the zero-valued `types.DelegationLock` record. -/
theorem delegationLock_recovers_to_zero (call : CallOutcome LockupInfo)
    (h : delegationLockPanics call = true) :
    (DelegationLock call).1 = some ⟨0, 0, 0, 0⟩ := by
  cases call with
  | panicked => rfl
  | failed e => simp [delegationLockPanics] at h
  | ok lock =>
    obtain ⟨ls, fe, et, d⟩ := lock
    cases ls <;> cases fe <;> cases et <;> cases d <;>
      simp_all [delegationLockPanics, DelegationLock]

/-- Witness for C3 at a call that panics outright. -/
theorem delegationLock_recovers_to_zero_witness :
    (DelegationLock CallOutcome.panicked).1 = some ⟨0, 0, 0, 0⟩ :=
  delegationLock_recovers_to_zero CallOutcome.panicked (by decide)

/-- C10: on every recovered-panic execution of `DelegationLock` — including
the one caused by a nil `LockedStake` that passes the timing-field check —
the error returned alongside the zero record is nil, indistinguishable from a
successful query. -/
theorem delegationLock_recovered_error_nil (call : CallOutcome LockupInfo)
    (h : delegationLockPanics call = true) :
    (DelegationLock call).2 = none := by
  cases call with
  | panicked => rfl
  | failed e => simp [delegationLockPanics] at h
  | ok lock =>
    obtain ⟨ls, fe, et, d⟩ := lock
    cases ls <;> cases fe <;> cases et <;> cases d <;>
      simp_all [delegationLockPanics, DelegationLock]

/-- Witness for C10 at a lockup record whose timing fields are present but
whose `LockedStake` is nil. -/
theorem delegationLock_recovered_error_nil_witness :
    (DelegationLock (CallOutcome.ok ⟨none, some 1, some 2, some 3⟩)).2 =
      none :=
  delegationLock_recovered_error_nil
    (CallOutcome.ok ⟨none, some 1, some 2, some 3⟩) (by decide)

/-- C4: when `GetLockupInfo` succeeds but `FromEpoch` or `EndTime` is nil,
`DelegationLock` returns no record and the "delegation lock missing" error. -/
theorem delegationLock_missing_timing (lock : LockupInfo)
    (h : lock.FromEpoch = none ∨ lock.EndTime = none) :
    DelegationLock (CallOutcome.ok lock) =
      (none, some "delegation lock missing") := by
  rcases h with h | h <;> simp [DelegationLock, h]

/-- Witness for C4 at a lockup record with a nil `FromEpoch`. -/
theorem delegationLock_missing_timing_witness :
    DelegationLock (CallOutcome.ok ⟨some 1, none, some 2, some 3⟩) =
      (none, some "delegation lock missing") :=
  delegationLock_missing_timing ⟨some 1, none, some 2, some 3⟩ (Or.inl rfl)

/-- Concrete lockup record: `GetLockupInfo` succeeded, both timing fields are
present, but `LockedStake` is nil. -/
def lockNilStake : LockupInfo := ⟨none, some 5, some 9, some 3⟩

/-- C7 (counterexample): at `lockNilStake` the call succeeds and both timing
fields are present, yet no record returned without error has its locked
amount equal to the contract's `LockedStake` value — that field is nil, and
the code actually panics on the dereference and recovers to the zero record.
The claim as stated is therefore false at this input. -/
theorem delegationLock_success_fields_cex :
    ¬ ∃ rec : Types.DelegationLock,
        DelegationLock (CallOutcome.ok lockNilStake) = (some rec, none) ∧
        lockNilStake.LockedStake = some rec.LockedAmount ∧
        lockNilStake.FromEpoch = some ((rec.LockedFromEpoch : Nat) : Int) ∧
        lockNilStake.EndTime = some ((rec.LockedUntil : Nat) : Int) ∧
        lockNilStake.Duration = some ((rec.Duration : Nat) : Int) := by
  rintro ⟨rec, -, hls, -, -, -⟩
  simp [lockNilStake] at hls

/-- C7 (amended): when `GetLockupInfo` succeeds, both timing fields are
present, and additionally `LockedStake` and `Duration` are present,
`DelegationLock` returns without error the four-field record built from the
contract values, the three `Uint64` fields truncated to 64 bits. -/
theorem delegationLock_success_fields (lock : LockupInfo) (ls fe et d : Int)
    (hls : lock.LockedStake = some ls) (hfe : lock.FromEpoch = some fe)
    (het : lock.EndTime = some et) (hd : lock.Duration = some d) :
    DelegationLock (CallOutcome.ok lock) =
      (some ⟨ls, goUint64 fe, goUint64 et, goUint64 d⟩, none) := by
  simp [DelegationLock, hls, hfe, het, hd]

/-- Witness for the amended C7 at a fully populated lockup record. -/
theorem delegationLock_success_fields_witness :
    DelegationLock (CallOutcome.ok ⟨some 10, some 5, some 9, some 3⟩) =
      (some ⟨10, goUint64 5, goUint64 9, goUint64 3⟩, none) :=
  delegationLock_success_fields ⟨some 10, some 5, some 9, some 3⟩ 10 5 9 3
    rfl rfl rfl rfl

/-- C8: whenever `DelegationTokenizerUnlocked` returns a non-nil error —
from contract instantiation or from the lock-status query — the boolean it
returns alongside is `false`. -/
theorem delegationTokenizerUnlocked_false_on_error
    (inst : Except GoError Unit) (q : Except GoError Bool) (e : GoError)
    (h : (DelegationTokenizerUnlocked inst q).2 = some e) :
    (DelegationTokenizerUnlocked inst q).1 = false := by
  cases inst with
  | error e2 => rfl
  | ok u =>
    cases q with
    | error e2 => rfl
    | ok lock => simp [DelegationTokenizerUnlocked] at h

/-- Witness for C8 at a concrete instantiation failure. -/
theorem delegationTokenizerUnlocked_false_on_error_witness :
    (DelegationTokenizerUnlocked (Except.error "no contract")
        (Except.ok true)).1 = false :=
  delegationTokenizerUnlocked_false_on_error (Except.error "no contract")
    (Except.ok true) "no contract" rfl
